import Mathlib

/-
Verification of the MoveIQ analysis core (src/analysis/aqi_normalizer.py and
src/analysis/life_cost_calculator.py) against its specification.

Numbers are modelled as exact rationals.  Python's built-in `round(x, n)`
rounds half to even; it is modelled by `rhe` (round half even to an integer)
and `pyRound n` (round to `n` decimal places).  For binary floating point
inputs an exact decimal tie never occurs at `n ≥ 1` decimal places, so the
rational model and the float code agree on which way ties go through the
symmetric half-even rule.
-/

namespace MoveIQ

/-! ## Rounding model -/

/-- Round half to even, the rounding rule of Python's built-in `round`. -/
def rhe (x : ℚ) : ℤ :=
  if x - ⌊x⌋ < 1/2 then ⌊x⌋
  else if 1/2 < x - ⌊x⌋ then ⌊x⌋ + 1
  else if ⌊x⌋ % 2 = 0 then ⌊x⌋ else ⌊x⌋ + 1

/-- Model of Python's `round(x, n)` for rationals. -/
def pyRound (n : ℕ) (x : ℚ) : ℚ := (rhe (x * 10 ^ n) : ℚ) / 10 ^ n

/-! ## AQI normalizer (src/analysis/aqi_normalizer.py)

The EPA breakpoint tables are stored in `AQINormalizer.__init__` as lists of
4-tuples `(concentration_low, concentration_high, index_low, index_high)`;
the two index bounds are Python ints. -/

/-- One row of a breakpoint table: `(bp_low, bp_high, aqi_low, aqi_high)`. -/
structure BP where
  lo : ℚ
  hi : ℚ
  il : ℤ
  ih : ℤ
deriving DecidableEq

/-- EPA AQI breakpoints for PM2.5 (µg/m³), from `self.pm25_breakpoints`. -/
def pm25_breakpoints : List BP :=
  [⟨0.0, 12.0, 0, 50⟩, ⟨12.1, 35.4, 51, 100⟩, ⟨35.5, 55.4, 101, 150⟩,
   ⟨55.5, 150.4, 151, 200⟩, ⟨150.5, 250.4, 201, 300⟩, ⟨250.5, 350.4, 301, 400⟩,
   ⟨350.5, 500.4, 401, 500⟩]

/-- EPA AQI breakpoints for PM10 (µg/m³), from `self.pm10_breakpoints`. -/
def pm10_breakpoints : List BP :=
  [⟨0, 54, 0, 50⟩, ⟨55, 154, 51, 100⟩, ⟨155, 254, 101, 150⟩,
   ⟨255, 354, 151, 200⟩, ⟨355, 424, 201, 300⟩, ⟨425, 504, 301, 400⟩,
   ⟨505, 604, 401, 500⟩]

/-- EPA AQI breakpoints for NO2 (ppb), from `self.no2_breakpoints`. -/
def no2_breakpoints : List BP :=
  [⟨0, 53, 0, 50⟩, ⟨54, 100, 51, 100⟩, ⟨101, 360, 101, 150⟩,
   ⟨361, 649, 151, 200⟩, ⟨650, 1249, 201, 300⟩, ⟨1250, 1649, 301, 400⟩,
   ⟨1650, 2049, 401, 500⟩]

/-- EPA AQI breakpoints for SO2 (ppb), from `self.so2_breakpoints`. -/
def so2_breakpoints : List BP :=
  [⟨0, 35, 0, 50⟩, ⟨36, 75, 51, 100⟩, ⟨76, 185, 101, 150⟩,
   ⟨186, 304, 151, 200⟩, ⟨305, 604, 201, 300⟩, ⟨605, 804, 301, 400⟩,
   ⟨805, 1004, 401, 500⟩]

/-- EPA AQI breakpoints for CO (ppm), from `self.co_breakpoints`. -/
def co_breakpoints : List BP :=
  [⟨0.0, 4.4, 0, 50⟩, ⟨4.5, 9.4, 51, 100⟩, ⟨9.5, 12.4, 101, 150⟩,
   ⟨12.5, 15.4, 151, 200⟩, ⟨15.5, 30.4, 201, 300⟩, ⟨30.5, 40.4, 301, 400⟩,
   ⟨40.5, 50.4, 401, 500⟩]

/-- EPA AQI breakpoints for O3 (ppm, 8-hour average), from `self.o3_breakpoints`. -/
def o3_breakpoints : List BP :=
  [⟨0.000, 0.054, 0, 50⟩, ⟨0.055, 0.070, 51, 100⟩, ⟨0.071, 0.085, 101, 150⟩,
   ⟨0.086, 0.105, 151, 200⟩, ⟨0.106, 0.200, 201, 300⟩]

/-- All six pollutant breakpoint tables of `AQINormalizer.__init__`. -/
def allTables : List (List BP) :=
  [pm25_breakpoints, pm10_breakpoints, no2_breakpoints, so2_breakpoints,
   co_breakpoints, o3_breakpoints]

/-- The scan `for bp_low, bp_high, aqi_low, aqi_high in breakpoints: if bp_low <=
concentration <= bp_high` of `_calculate_pollutant_aqi`: first matching row. -/
def findRange : List BP → ℚ → Option BP
  | [], _ => none
  | bp :: rest, c => if bp.lo ≤ c ∧ c ≤ bp.hi then some bp else findRange rest c

/-- The EPA linear-interpolation formula of `_calculate_pollutant_aqi`:
`((aqi_high - aqi_low) / (bp_high - bp_low)) * (concentration - bp_low) + aqi_low`. -/
def interp (bp : BP) (c : ℚ) : ℚ :=
  ((bp.ih : ℚ) - (bp.il : ℚ)) / (bp.hi - bp.lo) * (c - bp.lo) + (bp.il : ℚ)

/-- Embedding of `AQINormalizer._calculate_pollutant_aqi`.  A degenerate row with
`bp_high == bp_low` would raise `ZeroDivisionError` in the float division, which
the enclosing `except` turns into `None` for the whole call; the hypothetical
`breakpoints[-1]` on an empty table raises `IndexError`, likewise caught to
`None`.  Both are modelled by explicit `none` branches. -/
def _calculate_pollutant_aqi (c : ℚ) (bps : List BP) : Option ℚ :=
  if c < 0 then none
  else
    match findRange bps c with
    | some bp => if bp.hi = bp.lo then none else some (pyRound 1 (interp bp c))
    | none =>
      match bps.getLast? with
      | none => none
      | some lastBp =>
        if lastBp.hi < c then
          if lastBp.hi = lastBp.lo then none
          else some (min (pyRound 1 (interp lastBp c)) 500)
        else none

/-- Input mapping of `calculate_standardized_aqi`: one optional concentration per
pollutant key.  A key that is absent from the Python dict and a key bound to
`None` behave identically (`k in data and data[k] is not None`), so both are
modelled as `none`. -/
structure PollutantData where
  pm25 : Option ℚ
  pm10 : Option ℚ
  no2 : Option ℚ
  so2 : Option ℚ
  co : Option ℚ
  o3 : Option ℚ
deriving DecidableEq

/-- The `individual_aqis` list built by `calculate_standardized_aqi`, in source
order, including the fixed unit conversions for NO2 (×0.532), SO2 (×0.382),
CO (×0.000873) and O3 (×0.000512). -/
def individualAQIs (d : PollutantData) : List ℚ :=
  (match d.pm25 with
   | some c => (_calculate_pollutant_aqi c pm25_breakpoints).toList
   | none => []) ++
  (match d.pm10 with
   | some c => (_calculate_pollutant_aqi c pm10_breakpoints).toList
   | none => []) ++
  (match d.no2 with
   | some c => (_calculate_pollutant_aqi (c * 0.532) no2_breakpoints).toList
   | none => []) ++
  (match d.so2 with
   | some c => (_calculate_pollutant_aqi (c * 0.382) so2_breakpoints).toList
   | none => []) ++
  (match d.co with
   | some c => (_calculate_pollutant_aqi (c * 0.000873) co_breakpoints).toList
   | none => []) ++
  (match d.o3 with
   | some c => (_calculate_pollutant_aqi (c * 0.000512) o3_breakpoints).toList
   | none => [])

/-- Python's `max` over a nonempty list, head plus tail. -/
def listMax (x : ℚ) (xs : List ℚ) : ℚ := xs.foldl max x

/-- Embedding of `AQINormalizer.calculate_standardized_aqi`: collect the
individual AQIs and return their maximum, or `none` when the list is empty. -/
def calculate_standardized_aqi (d : PollutantData) : Option ℚ :=
  match individualAQIs d with
  | [] => none
  | x :: xs => some (listMax x xs)

/-! ## Life-cost calculator (src/analysis/life_cost_calculator.py) -/

/-- Constant `self.PM25_LIFE_IMPACT_COEFFICIENT` of `LifeCostCalculator.__init__`,
years of life expectancy per µg/m³ of PM2.5. -/
def PM25_LIFE_IMPACT_COEFFICIENT : ℚ := 0.098

/-- Embedding of `LifeCostCalculator._get_baseline_risk_adjustment`. -/
def _get_baseline_risk_adjustment (pm25_level : ℚ) : ℚ :=
  if pm25_level ≤ 12 then 1.0
  else if pm25_level ≤ 25 then 0.9
  else if pm25_level ≤ 50 then 0.7
  else 0.5

/-- Embedding of `LifeCostCalculator._aqi_to_pm25_estimate`. -/
def _aqi_to_pm25_estimate (aqi : ℚ) : ℚ :=
  if aqi ≤ 50 then aqi * 0.24
  else if aqi ≤ 100 then 12 + (aqi - 50) * 0.468
  else if aqi ≤ 150 then 35.4 + (aqi - 100) * 0.398
  else if aqi ≤ 200 then 55.4 + (aqi - 150) * 1.898
  else 150.4 + (aqi - 200) * 1.0

/-- Embedding of `LifeCostCalculator._estimate_life_impact_from_aqi`.  The body
computes both PM2.5 estimates and then evaluates
`-pm25_delta * self.pm25_life_impact_coefficient`; the instance has no
attribute of that lower-case name — the constructor only defines
`PM25_LIFE_IMPACT_COEFFICIENT` — so the attribute access raises
`AttributeError`, which the function's own `except Exception: return 0.0`
swallows.  The function therefore returns `0.0` on every input. -/
def _estimate_life_impact_from_aqi (origin_aqi dest_aqi : ℚ) : ℚ := 0

/-- The computation the body of `_estimate_life_impact_from_aqi` spells out
(lines 204-208 of the source), as it would evaluate if the coefficient
attribute reference resolved to `PM25_LIFE_IMPACT_COEFFICIENT`:
`pm25_delta = dest_est - origin_est; return -pm25_delta * coefficient`. -/
def _estimate_life_impact_from_aqi_intended (origin_aqi dest_aqi : ℚ) : ℚ :=
  -(_aqi_to_pm25_estimate dest_aqi - _aqi_to_pm25_estimate origin_aqi) *
    PM25_LIFE_IMPACT_COEFFICIENT

/-- A row of the `cities_analysis` query in `_get_city_data`, before default
substitution: each numeric column is nullable (`none` models SQL NULL). -/
structure RawCityRow where
  city_name : String
  country : Option String
  standardized_aqi : Option ℚ
  cost_of_living_index : Option ℚ
  life_expectancy : Option ℚ
  pm25_concentration : Option ℚ
  latitude : Option ℚ
  longitude : Option ℚ
deriving DecidableEq

/-- The record `_get_city_data` returns after default substitution. -/
structure CityData where
  city_name : String
  country : Option String
  standardized_aqi : ℚ
  cost_of_living_index : ℚ
  life_expectancy : ℚ
  pm25_concentration : ℚ
  latitude : ℚ
  longitude : ℚ
deriving DecidableEq

/-- Model of the Python idiom `float(value or default)` used in `_get_city_data`:
`None` is falsy and so is `0.0`, so both fall through to the default. -/
def pyOrFloat (value : Option ℚ) (dflt : ℚ) : ℚ :=
  match value with
  | none => dflt
  | some x => if x = 0 then dflt else x

/-- Embedding of `LifeCostCalculator._get_city_data`.  The SQL query against
`cities_analysis` is an external collaborator; it is modelled as an abstract
lookup from the city key to an optional row. -/
def _get_city_data (lookup : String → Option RawCityRow) (city_full_name : String) :
    Option CityData :=
  match lookup city_full_name with
  | none => none
  | some row =>
    some ⟨row.city_name, row.country,
      pyOrFloat row.standardized_aqi 0,
      pyOrFloat row.cost_of_living_index 100,
      pyOrFloat row.life_expectancy 75,
      pyOrFloat row.pm25_concentration 0,
      pyOrFloat row.latitude 0,
      pyOrFloat row.longitude 0⟩

/-- Embedding of `_calculate_health_adjusted_life_expectancy_delta`.  With
well-typed records the body cannot raise, so the outer `except` fallback is
unreachable and is not modelled.  The computed `health_uncertainty` is
discarded by the source and omitted here. -/
def _calculate_health_adjusted_life_expectancy_delta (origin_data destination_data : CityData) : ℚ :=
  let base_delta := destination_data.life_expectancy - origin_data.life_expectancy
  let pm25_life_impact :=
    if 0 < origin_data.pm25_concentration ∧ 0 < destination_data.pm25_concentration then
      (origin_data.pm25_concentration - destination_data.pm25_concentration) *
        PM25_LIFE_IMPACT_COEFFICIENT *
        _get_baseline_risk_adjustment
          (max origin_data.pm25_concentration destination_data.pm25_concentration)
    else
      _estimate_life_impact_from_aqi origin_data.standardized_aqi
        destination_data.standardized_aqi
  pyRound 3 (base_delta + pm25_life_impact)

/-- Embedding of `_calculate_cost_per_life_year`.  Both source branches after the
near-zero guard return the same rounded ratio, so they are written once. -/
def _calculate_cost_per_life_year (cost_delta life_exp_delta : ℚ) : Option ℚ :=
  if |life_exp_delta| < 0.01 then none
  else some (pyRound 2 (cost_delta * 10 / life_exp_delta))

/-- Embedding of `_calculate_recommendation_score`. -/
def _calculate_recommendation_score (cost_delta life_exp_delta aqi_delta : ℚ) : ℚ :=
  let score : ℚ := 50
  let score := if 0 < life_exp_delta then score + min (life_exp_delta * 10) 30
    else score + max (life_exp_delta * 10) (-30)
  let score := if cost_delta < 0 then score + min (|cost_delta| * 0.3) 20
    else score - min (cost_delta * 0.2) 25
  let score := if aqi_delta < 0 then score + min (|aqi_delta| * 0.15) 25
    else score - min (aqi_delta * 0.15) 20
  max 0 (min 100 (pyRound 1 score))

/-- Python exception values observable from `calculate_comparison`.
`valueError` and `exception` model the `ValueError` and bare `Exception` the
source raises.  Modelled from the spec: `cityNotFoundError` stands for the
`CityNotFoundError` class the specification names; no class of that name
exists anywhere in the repository, so the embedded code never constructs it. -/
inductive PyExc where
  | valueError : String → PyExc
  | exception : String → PyExc
  | cityNotFoundError : String → PyExc
deriving DecidableEq

/-- Python's `str(e)` for the exceptions above: the carried message. -/
def pyStr : PyExc → String
  | .valueError m => m
  | .exception m => m
  | .cityNotFoundError m => m

/-- True exactly on the `CityNotFoundError` class. -/
def PyExc.isCityNotFound : PyExc → Bool
  | .cityNotFoundError _ => true
  | _ => false

/-- The comparison record `calculate_comparison` returns.  The
`analysis_details` entry (four lists of narrative strings produced by
`_generate_analysis_details`) is pure string formatting and is not modelled. -/
structure ComparisonResult where
  origin_city : String
  destination_city : String
  origin_aqi : ℚ
  destination_aqi : ℚ
  origin_cost : ℚ
  destination_cost : ℚ
  origin_life_exp : ℚ
  destination_life_exp : ℚ
  cost_delta : ℚ
  aqi_delta : ℚ
  life_expectancy_delta : ℚ
  health_adjusted_life_exp_delta : ℚ
  cost_per_life_year : Option ℚ
  recommendation_score : ℚ
deriving DecidableEq

/-- Body of the `try` block of `calculate_comparison`: resolve both records,
raise `ValueError` when either is missing, otherwise build the result. -/
def calculate_comparison_body (lookup : String → Option RawCityRow)
    (origin_city destination_city : String) : Except PyExc ComparisonResult :=
  match _get_city_data lookup origin_city, _get_city_data lookup destination_city with
  | some origin_data, some destination_data =>
    let cost_delta := destination_data.cost_of_living_index - origin_data.cost_of_living_index
    let aqi_delta := destination_data.standardized_aqi - origin_data.standardized_aqi
    let base_life_exp_delta := destination_data.life_expectancy - origin_data.life_expectancy
    let health_adjusted_life_exp_delta :=
      _calculate_health_adjusted_life_expectancy_delta origin_data destination_data
    .ok ⟨origin_city, destination_city,
      origin_data.standardized_aqi, destination_data.standardized_aqi,
      origin_data.cost_of_living_index, destination_data.cost_of_living_index,
      origin_data.life_expectancy, destination_data.life_expectancy,
      cost_delta, aqi_delta, base_life_exp_delta, health_adjusted_life_exp_delta,
      _calculate_cost_per_life_year cost_delta health_adjusted_life_exp_delta,
      _calculate_recommendation_score cost_delta health_adjusted_life_exp_delta aqi_delta⟩
  | _, _ => .error (.valueError "City data not found for one or both cities")

/-- Embedding of `LifeCostCalculator.calculate_comparison`: the `except
Exception` clause re-raises every escaping exception wrapped in a bare
`Exception` with the prefixed message. -/
def calculate_comparison (lookup : String → Option RawCityRow)
    (origin_city destination_city : String) : Except PyExc ComparisonResult :=
  match calculate_comparison_body lookup origin_city destination_city with
  | .ok r => .ok r
  | .error e =>
    .error (.exception ("Failed to calculate life-cost comparison: " ++ pyStr e))

/-- True exactly when the comparison returned a result rather than raising. -/
def exceptOk : Except PyExc ComparisonResult → Bool
  | .ok _ => true
  | .error _ => false

/-- Test fixture: the spec's end-to-end example origin (Delhi-like: AQI 185,
cost 45, life expectancy 69.7, no PM2.5 data). -/
def delhiRow : RawCityRow :=
  ⟨"Delhi", some "India", some 185, some 45, some 69.7, none, none, none⟩

/-- Test fixture: the spec's end-to-end example destination (Vancouver-like:
AQI 42, cost 115, life expectancy 82.0, no PM2.5 data). -/
def vancouverRow : RawCityRow :=
  ⟨"Vancouver", some "Canada", some 42, some 115, some 82.0, none, none, none⟩

/-- Test fixture lookup resolving the two rows above. -/
def demoLookup : String → Option RawCityRow :=
  fun k => if k = "Delhi" then some delhiRow else some vancouverRow

/-- Well-formedness of a breakpoint table: nonnegative lower bounds, nonempty
ranges, and rows strictly ordered with gaps between consecutive ranges. -/
def TableOK (t : List BP) : Prop :=
  (∀ bp ∈ t, 0 ≤ bp.lo ∧ bp.lo < bp.hi) ∧ t.Pairwise (fun a b => a.hi < b.lo)

/-! ## Rounding lemmas -/

lemma rhe_intCast (k : ℤ) : rhe (k : ℚ) = k := by
  unfold rhe
  rw [Int.floor_intCast]
  norm_num

lemma rhe_eq_of_lt (x : ℚ) (k : ℤ) (h1 : (k : ℚ) ≤ x) (h2 : x < k + 1/2) : rhe x = k := by
  have hf : ⌊x⌋ = k := by
    rw [Int.floor_eq_iff]
    exact ⟨h1, by push_cast; linarith⟩
  unfold rhe
  rw [hf, if_pos (by linarith)]

lemma rhe_half (k : ℤ) : rhe ((k : ℚ) + 1/2) = if k % 2 = 0 then k else k + 1 := by
  have hf : ⌊(k : ℚ) + 1/2⌋ = k := by
    rw [Int.floor_eq_iff]
    exact ⟨by linarith, by push_cast; linarith⟩
  unfold rhe
  rw [hf, if_neg (by linarith), if_neg (by linarith)]

lemma rhe_neg (x : ℚ) : rhe (-x) = - rhe x := by
  rcases eq_or_lt_of_le (Int.floor_le x) with heq | hlt
  · have hx : x = (⌊x⌋ : ℚ) := heq.symm
    rw [hx, ← Int.cast_neg, rhe_intCast, rhe_intCast]
  · have hup : x < ⌊x⌋ + 1 := Int.lt_floor_add_one x
    have hnf : ⌊-x⌋ = -⌊x⌋ - 1 := by
      rw [Int.floor_eq_iff]
      exact ⟨by push_cast; linarith, by push_cast; linarith⟩
    set f := ⌊x⌋ with hfdef
    rcases lt_trichotomy (x - f) (1/2) with hlo | hmid | hhi
    · have e1 : rhe x = f := by
        unfold rhe; rw [← hfdef, if_pos hlo]
      have e2 : rhe (-x) = -f := by
        unfold rhe
        rw [hnf, if_neg (by push_cast; linarith), if_pos (by push_cast; linarith)]
        ring
      rw [e1, e2]
    · have e1 : rhe x = if f % 2 = 0 then f else f + 1 := by
        unfold rhe; rw [← hfdef, if_neg (by linarith), if_neg (by linarith)]
      have e2 : rhe (-x) = if (-f - 1) % 2 = 0 then -f - 1 else -f := by
        unfold rhe
        rw [hnf, if_neg (by push_cast; linarith), if_neg (by push_cast; linarith)]
        split_ifs with h
        · rfl
        · ring
      rw [e1, e2]
      split_ifs with h1 h2 h2
      · omega
      · omega
      · omega
      · omega
    · have e1 : rhe x = f + 1 := by
        unfold rhe; rw [← hfdef, if_neg (by linarith), if_pos hhi]
      have e2 : rhe (-x) = -(f + 1) := by
        unfold rhe
        rw [hnf, if_pos (by push_cast; linarith)]
        ring
      rw [e1, e2]

lemma pyRound_neg (n : ℕ) (x : ℚ) : pyRound n (-x) = - pyRound n x := by
  unfold pyRound
  rw [neg_mul, rhe_neg]
  push_cast
  ring

lemma pyRound_int (n : ℕ) (k : ℤ) : pyRound n ((k : ℚ)) = k := by
  unfold pyRound
  rw [show ((k : ℚ) * 10 ^ n) = (((k * 10 ^ n : ℤ)) : ℚ) by push_cast; ring, rhe_intCast]
  push_cast
  rw [mul_div_assoc, div_self (by positivity), mul_one]

lemma pyRound_eq_self (n : ℕ) (x : ℚ) (k : ℤ) (h : x * 10 ^ n = (k : ℚ)) : pyRound n x = x := by
  unfold pyRound
  rw [h, rhe_intCast, ← h, mul_div_assoc, div_self (by positivity), mul_one]

/-! ## List-maximum lemmas -/

lemma self_le_listMax (x : ℚ) (xs : List ℚ) : x ≤ listMax x xs := by
  induction xs generalizing x with
  | nil => simp [listMax]
  | cons y ys ih =>
    have h1 : x ≤ max x y := le_max_left x y
    have h2 : max x y ≤ listMax (max x y) ys := ih (max x y)
    simpa [listMax] using le_trans h1 h2

lemma listMax_mem (x : ℚ) (xs : List ℚ) : listMax x xs ∈ x :: xs := by
  induction xs generalizing x with
  | nil => simp [listMax]
  | cons y ys ih =>
    have h := ih (max x y)
    have hx : listMax x (y :: ys) = listMax (max x y) ys := rfl
    rcases List.mem_cons.mp h with h' | h'
    · rcases max_choice x y with hm | hm
      · rw [hx, h', hm]; exact List.mem_cons_self _ _
      · rw [hx, h', hm]
        exact List.mem_cons_of_mem _ (List.mem_cons_self _ _)
    · rw [hx]
      exact List.mem_cons_of_mem _ (List.mem_cons_of_mem _ h')

lemma mem_le_listMax (a x : ℚ) (xs : List ℚ) (h : a ∈ x :: xs) : a ≤ listMax x xs := by
  induction xs generalizing x with
  | nil => simp at h; simpa [listMax] using h.le
  | cons y ys ih =>
    have hx : listMax x (y :: ys) = listMax (max x y) ys := rfl
    rcases List.mem_cons.mp h with h' | h'
    · rw [hx, h']
      exact le_trans (le_max_left x y) (self_le_listMax _ _)
    · rcases List.mem_cons.mp h' with h'' | h''
      · rw [hx, h'']
        exact le_trans (le_max_right x y) (self_le_listMax _ _)
      · rw [hx]
        exact ih (max x y) (List.mem_cons_of_mem _ h'')

/-! ## Breakpoint-table lemmas -/

lemma tableOK_pm25 : TableOK pm25_breakpoints := by
  constructor
  · norm_num [pm25_breakpoints, List.forall_mem_cons]
  · norm_num [pm25_breakpoints, List.pairwise_cons, List.forall_mem_cons]

lemma tableOK_pm10 : TableOK pm10_breakpoints := by
  constructor
  · norm_num [pm10_breakpoints, List.forall_mem_cons]
  · norm_num [pm10_breakpoints, List.pairwise_cons, List.forall_mem_cons]

lemma tableOK_no2 : TableOK no2_breakpoints := by
  constructor
  · norm_num [no2_breakpoints, List.forall_mem_cons]
  · norm_num [no2_breakpoints, List.pairwise_cons, List.forall_mem_cons]

lemma tableOK_so2 : TableOK so2_breakpoints := by
  constructor
  · norm_num [so2_breakpoints, List.forall_mem_cons]
  · norm_num [so2_breakpoints, List.pairwise_cons, List.forall_mem_cons]

lemma tableOK_co : TableOK co_breakpoints := by
  constructor
  · norm_num [co_breakpoints, List.forall_mem_cons]
  · norm_num [co_breakpoints, List.pairwise_cons, List.forall_mem_cons]

lemma tableOK_o3 : TableOK o3_breakpoints := by
  constructor
  · norm_num [o3_breakpoints, List.forall_mem_cons]
  · norm_num [o3_breakpoints, List.pairwise_cons, List.forall_mem_cons]

lemma findRange_lo (t : List BP) (hT : TableOK t) (bp : BP) (hmem : bp ∈ t) :
    findRange t bp.lo = some bp := by
  obtain ⟨hbnd, hpair⟩ := hT
  induction t with
  | nil => cases hmem
  | cons hd tl ih =>
    rcases List.mem_cons.mp hmem with h | h
    · have hle : bp.lo ≤ bp.hi := ((hbnd bp hmem).2).le
      rw [← h]
      simp [findRange, le_refl, hle]
    · have hgt : hd.hi < bp.lo := (List.pairwise_cons.mp hpair).1 bp h
      have hne : ¬(hd.lo ≤ bp.lo ∧ bp.lo ≤ hd.hi) := fun hc => absurd hc.2 (not_le.mpr hgt)
      rw [findRange, if_neg hne]
      exact ih h (fun b hb => hbnd b (List.mem_cons_of_mem _ hb)) (List.pairwise_cons.mp hpair).2

lemma findRange_hi (t : List BP) (hT : TableOK t) (bp : BP) (hmem : bp ∈ t) :
    findRange t bp.hi = some bp := by
  obtain ⟨hbnd, hpair⟩ := hT
  induction t with
  | nil => cases hmem
  | cons hd tl ih =>
    rcases List.mem_cons.mp hmem with h | h
    · have hle : bp.lo ≤ bp.hi := ((hbnd bp hmem).2).le
      rw [← h]
      simp [findRange, le_refl, hle]
    · have hgt : hd.hi < bp.lo := (List.pairwise_cons.mp hpair).1 bp h
      have hlh : bp.lo ≤ bp.hi := ((hbnd bp (List.mem_cons_of_mem _ h)).2).le
      have hne : ¬(hd.lo ≤ bp.hi ∧ bp.hi ≤ hd.hi) := fun hc =>
        absurd hc.2 (not_le.mpr (lt_of_lt_of_le hgt hlh))
      rw [findRange, if_neg hne]
      exact ih h (fun b hb => hbnd b (List.mem_cons_of_mem _ hb)) (List.pairwise_cons.mp hpair).2

/-- At a row's lower concentration bound the lookup returns exactly that row's
`aqi_low`. -/
lemma aqi_at_lo (t : List BP) (hT : TableOK t) (bp : BP) (hmem : bp ∈ t) :
    _calculate_pollutant_aqi bp.lo t = some ((bp.il : ℚ)) := by
  obtain ⟨h0, hlt⟩ := hT.1 bp hmem
  rw [_calculate_pollutant_aqi, if_neg (not_lt.mpr h0), findRange_lo t hT bp hmem]
  have hinterp : interp bp bp.lo = (bp.il : ℚ) := by
    unfold interp; ring
  simp only [hinterp, if_neg (ne_of_gt hlt), pyRound_int]

/-- At a row's upper concentration bound the lookup returns exactly that row's
`aqi_high`. -/
lemma aqi_at_hi (t : List BP) (hT : TableOK t) (bp : BP) (hmem : bp ∈ t) :
    _calculate_pollutant_aqi bp.hi t = some ((bp.ih : ℚ)) := by
  obtain ⟨h0, hlt⟩ := hT.1 bp hmem
  rw [_calculate_pollutant_aqi, if_neg (not_lt.mpr (le_trans h0 hlt.le)),
    findRange_hi t hT bp hmem]
  have hinterp : interp bp bp.hi = (bp.ih : ℚ) := by
    unfold interp
    have hne : bp.hi - bp.lo ≠ 0 := sub_ne_zero.mpr (ne_of_gt hlt)
    field_simp
  simp only [hinterp, if_neg (ne_of_gt hlt), pyRound_int]

/-- Concrete boundary value: a PM2.5 concentration of exactly 12 µg/m³ maps to
AQI 50.0. -/
lemma aqi_pm25_at_12 : _calculate_pollutant_aqi 12 pm25_breakpoints = some 50 := by
  have h := aqi_at_hi pm25_breakpoints tableOK_pm25 ⟨0.0, 12.0, 0, 50⟩
    (by simp [pm25_breakpoints])
  norm_num at h
  exact h

/-! ## Calculator lemmas -/

lemma healthAdj_anti (a b : CityData) :
    _calculate_health_adjusted_life_expectancy_delta a b =
      - _calculate_health_adjusted_life_expectancy_delta b a := by
  unfold _calculate_health_adjusted_life_expectancy_delta
  dsimp only
  by_cases h : 0 < a.pm25_concentration ∧ 0 < b.pm25_concentration
  · rw [if_pos h, if_pos ⟨h.2, h.1⟩, max_comm b.pm25_concentration a.pm25_concentration]
    rw [show a.life_expectancy - b.life_expectancy +
        (b.pm25_concentration - a.pm25_concentration) * PM25_LIFE_IMPACT_COEFFICIENT *
          _get_baseline_risk_adjustment (max a.pm25_concentration b.pm25_concentration) =
        -(b.life_expectancy - a.life_expectancy +
          (a.pm25_concentration - b.pm25_concentration) * PM25_LIFE_IMPACT_COEFFICIENT *
            _get_baseline_risk_adjustment (max a.pm25_concentration b.pm25_concentration))
      by ring, pyRound_neg, neg_neg]
  · rw [if_neg h, if_neg (fun hc => h ⟨hc.2, hc.1⟩)]
    simp only [_estimate_life_impact_from_aqi, add_zero]
    rw [show b.life_expectancy - a.life_expectancy =
        -(a.life_expectancy - b.life_expectancy) by ring, pyRound_neg]

/-! ## Claim theorems -/

/-- C2: the recommendation score equals 50 plus the three weighted terms (life:
+min(delta*10, 30) if positive else +max(delta*10, -30); cost: +min(|delta|*0.3,
20) if cheaper else -min(delta*0.2, 25); air: +min(|delta|*0.15, 25) if cleaner
else -min(delta*0.15, 20)), rounded to 1 decimal and clamped to [0, 100]; in
particular the returned score lies in [0, 100] for every finite input. -/
theorem recommendation_score_formula_and_bounds (cost_delta life_exp_delta aqi_delta : ℚ) :
    _calculate_recommendation_score cost_delta life_exp_delta aqi_delta =
      max 0 (min 100 (pyRound 1 (50 +
        (if 0 < life_exp_delta then min (life_exp_delta * 10) 30
         else max (life_exp_delta * 10) (-30)) +
        (if cost_delta < 0 then min (|cost_delta| * 0.3) 20
         else -(min (cost_delta * 0.2) 25)) +
        (if aqi_delta < 0 then min (|aqi_delta| * 0.15) 25
         else -(min (aqi_delta * 0.15) 20))))) ∧
    0 ≤ _calculate_recommendation_score cost_delta life_exp_delta aqi_delta ∧
    _calculate_recommendation_score cost_delta life_exp_delta aqi_delta ≤ 100 := by
  have heq : _calculate_recommendation_score cost_delta life_exp_delta aqi_delta =
      max 0 (min 100 (pyRound 1 (50 +
        (if 0 < life_exp_delta then min (life_exp_delta * 10) 30
         else max (life_exp_delta * 10) (-30)) +
        (if cost_delta < 0 then min (|cost_delta| * 0.3) 20
         else -(min (cost_delta * 0.2) 25)) +
        (if aqi_delta < 0 then min (|aqi_delta| * 0.15) 25
         else -(min (aqi_delta * 0.15) 20))))) := by
    unfold _calculate_recommendation_score
    dsimp only
    split_ifs <;> ring_nf
  refine ⟨heq, ?_, ?_⟩
  · rw [heq]; exact le_max_left 0 _
  · rw [heq]; exact max_le (by norm_num) (min_le_left 100 _)

/-- C6: when both PM2.5 concentrations are known (positive), the
health-adjusted life-expectancy delta is the base delta plus
`(origin.pm25 - dest.pm25) * 0.098 * risk_adjustment`, rounded to 3 decimals,
with the risk adjustment keyed to the larger PM2.5 via the four tiers
≤12→1.0, ≤25→0.9, ≤50→0.7, >50→0.5. -/
theorem health_adjusted_delta_formula (o d : CityData)
    (h1 : 0 < o.pm25_concentration) (h2 : 0 < d.pm25_concentration) :
    _calculate_health_adjusted_life_expectancy_delta o d =
      pyRound 3 ((d.life_expectancy - o.life_expectancy) +
        (o.pm25_concentration - d.pm25_concentration) * 0.098 *
          (if max o.pm25_concentration d.pm25_concentration ≤ 12 then 1.0
           else if max o.pm25_concentration d.pm25_concentration ≤ 25 then 0.9
           else if max o.pm25_concentration d.pm25_concentration ≤ 50 then 0.7
           else 0.5)) := by
  unfold _calculate_health_adjusted_life_expectancy_delta
  dsimp only
  rw [if_pos ⟨h1, h2⟩]
  rfl

/-- Closing instance of `health_adjusted_delta_formula` at a concrete pair of
records with PM2.5 known on both sides. -/
theorem health_adjusted_delta_formula_witness :
    (0 : ℚ) < 10 ∧ (0 : ℚ) < 5 ∧
    _calculate_health_adjusted_life_expectancy_delta
        (⟨"A", none, 50, 100, 80, 10, 0, 0⟩ : CityData)
        (⟨"B", none, 40, 90, 70, 5, 0, 0⟩ : CityData) =
      pyRound 3 (((70 : ℚ) - 80) + ((10 : ℚ) - 5) * 0.098 *
        (if max (10 : ℚ) 5 ≤ 12 then 1.0
         else if max (10 : ℚ) 5 ≤ 25 then 0.9
         else if max (10 : ℚ) 5 ≤ 50 then 0.7
         else 0.5)) :=
  ⟨by norm_num, by norm_num,
    health_adjusted_delta_formula _ _ (by norm_num) (by norm_num)⟩

/-- C7: `cost_per_life_year` is `none` exactly when the health-adjusted
life-expectancy delta is within 0.01 of zero, for every cost delta; otherwise
it is `round(cost_delta * 10 / delta, 2)`. -/
theorem cost_per_life_year_guard (cost_delta life_exp_delta : ℚ) :
    (_calculate_cost_per_life_year cost_delta life_exp_delta = none ↔
      |life_exp_delta| < 0.01) ∧
    (¬ |life_exp_delta| < 0.01 →
      _calculate_cost_per_life_year cost_delta life_exp_delta =
        some (pyRound 2 (cost_delta * 10 / life_exp_delta))) := by
  unfold _calculate_cost_per_life_year
  constructor
  · split_ifs with h
    · simp [h]
    · simp [h]
  · intro h
    rw [if_neg h]

/-- Closing instance of `cost_per_life_year_guard`: both the `none` case at a
near-zero delta and the ratio case away from zero. -/
theorem cost_per_life_year_guard_witness :
    _calculate_cost_per_life_year 70 0.005 = none ∧
    _calculate_cost_per_life_year 70 2 = some (pyRound 2 (70 * 10 / 2)) :=
  ⟨(cost_per_life_year_guard 70 0.005).1.mpr
      (by rw [show |(0.005 : ℚ)| = 0.005 from abs_of_pos (by norm_num)]; norm_num),
   (cost_per_life_year_guard 70 2).2 (by norm_num)⟩

/-- C3: `calculate_standardized_aqi` returns `none` exactly when no pollutant
yielded an individual AQI, and otherwise the maximum of the collected
individual AQIs (membership plus upper bound); in particular an empty mapping
and an all-negative mapping both give `none`. -/
theorem standardized_aqi_is_max (d : PollutantData) :
    (calculate_standardized_aqi d = none ↔ individualAQIs d = []) ∧
    (∀ m : ℚ, calculate_standardized_aqi d = some m →
      m ∈ individualAQIs d ∧ ∀ a ∈ individualAQIs d, a ≤ m) ∧
    calculate_standardized_aqi ⟨none, none, none, none, none, none⟩ = none ∧
    calculate_standardized_aqi
      ⟨some (-1), some (-1), some (-1), some (-1), some (-1), some (-1)⟩ = none := by
  refine ⟨?_, ?_, rfl, ?_⟩
  · unfold calculate_standardized_aqi
    cases h : individualAQIs d <;> simp [h]
  · intro m hm
    unfold calculate_standardized_aqi at hm
    cases h : individualAQIs d with
    | nil => rw [h] at hm; cases hm
    | cons x xs =>
      rw [h] at hm
      have hmx : m = listMax x xs := by
        simpa using hm.symm
      constructor
      · rw [hmx]
        exact listMax_mem x xs
      · intro a ha
        rw [hmx]
        exact mem_le_listMax a x xs ha
  · norm_num [calculate_standardized_aqi, individualAQIs, _calculate_pollutant_aqi]

/-- Closing instance of `standardized_aqi_is_max`: a single-pollutant reading
`pm25 = 12.0` yields overall AQI 50.0, which is a member of the collected
individual AQIs. -/
theorem standardized_aqi_is_max_witness :
    calculate_standardized_aqi ⟨some 12, none, none, none, none, none⟩ = some 50 ∧
    (50 : ℚ) ∈ individualAQIs ⟨some 12, none, none, none, none, none⟩ := by
  have heval : calculate_standardized_aqi ⟨some 12, none, none, none, none, none⟩ = some 50 := by
    simp [calculate_standardized_aqi, individualAQIs, aqi_pm25_at_12, listMax]
  exact ⟨heval,
    ((standardized_aqi_is_max ⟨some 12, none, none, none, none, none⟩).2.1 50 heval).1⟩

/-- C4: for a nonnegative concentration matched by the table scan to a
(nondegenerate) row, the lookup returns the EPA linear interpolation rounded
to 1 decimal; at every row's lower concentration bound, in all six tables,
this yields exactly that row's `aqi_low`; and pm25 = 12.0 gives AQI 50.0. -/
theorem pollutant_aqi_linear_interpolation :
    (∀ (bps : List BP) (c : ℚ) (bp : BP), 0 ≤ c → bp.lo < bp.hi →
      findRange bps c = some bp →
      _calculate_pollutant_aqi c bps =
        some (pyRound 1
          (((bp.ih : ℚ) - (bp.il : ℚ)) / (bp.hi - bp.lo) * (c - bp.lo) + (bp.il : ℚ)))) ∧
    (∀ t ∈ allTables, ∀ bp ∈ t, _calculate_pollutant_aqi bp.lo t = some ((bp.il : ℚ))) ∧
    _calculate_pollutant_aqi 12 pm25_breakpoints = some 50 := by
  refine ⟨?_, ?_, aqi_pm25_at_12⟩
  · intro bps c bp h0 hlh hfind
    rw [_calculate_pollutant_aqi, if_neg (not_lt.mpr h0), hfind]
    dsimp only
    rw [if_neg (ne_of_gt hlh)]
    rfl
  · intro t ht bp hbp
    simp only [allTables, List.mem_cons, List.not_mem_nil, or_false] at ht
    rcases ht with h | h | h | h | h | h <;> subst h <;>
      first
      | exact aqi_at_lo _ tableOK_pm25 bp hbp
      | exact aqi_at_lo _ tableOK_pm10 bp hbp
      | exact aqi_at_lo _ tableOK_no2 bp hbp
      | exact aqi_at_lo _ tableOK_so2 bp hbp
      | exact aqi_at_lo _ tableOK_co bp hbp
      | exact aqi_at_lo _ tableOK_o3 bp hbp

/-- Closing instance of `pollutant_aqi_linear_interpolation`: pm25 = 20 falls
in the second PM2.5 row and interpolates there. -/
theorem pollutant_aqi_linear_interpolation_witness :
    _calculate_pollutant_aqi 20 pm25_breakpoints =
      some (pyRound 1
        ((((100 : ℤ) : ℚ) - ((51 : ℤ) : ℚ)) / (35.4 - 12.1) * (20 - 12.1) + ((51 : ℤ) : ℚ))) :=
  pollutant_aqi_linear_interpolation.1 pm25_breakpoints 20 ⟨12.1, 35.4, 51, 100⟩
    (by norm_num) (by norm_num) (by norm_num [findRange, pm25_breakpoints])

/-- C5 fails as stated: the AQI at the PM2.5 table's first upper bound (12.0)
is 50.0, that row's `aqi_high`, but the successor row's `aqi_low` is 51, so
the value at the upper bound does not equal the next range's `index_low`. -/
theorem aqi_boundary_continuity_counterexample :
    _calculate_pollutant_aqi 12 pm25_breakpoints = some 50 ∧
    pm25_breakpoints[1]? = some ⟨12.1, 35.4, 51, 100⟩ ∧
    ¬ _calculate_pollutant_aqi 12 pm25_breakpoints = some ((51 : ℚ)) := by
  refine ⟨aqi_pm25_at_12, rfl, ?_⟩
  rw [aqi_pm25_at_12]
  simp only [Option.some.injEq]
  norm_num

/-- C5 amended: in every table, consecutive rows are separated by a gap in
concentration and step the index by exactly 1 (so the mapping jumps at
internal boundaries rather than being continuous); the AQI at a row's upper
bound is that row's `aqi_high` and at a row's lower bound that row's
`aqi_low`. -/
theorem aqi_boundary_adjacency :
    ∀ t ∈ allTables,
      List.Chain' (fun a b => a.hi < b.lo ∧ b.il = a.ih + 1) t ∧
      ∀ bp ∈ t, _calculate_pollutant_aqi bp.hi t = some ((bp.ih : ℚ)) ∧
        _calculate_pollutant_aqi bp.lo t = some ((bp.il : ℚ)) := by
  intro t ht
  simp only [allTables, List.mem_cons, List.not_mem_nil, or_false] at ht
  rcases ht with h | h | h | h | h | h <;> subst h
  · exact ⟨by norm_num [pm25_breakpoints, List.chain'_cons],
      fun bp hbp => ⟨aqi_at_hi _ tableOK_pm25 bp hbp, aqi_at_lo _ tableOK_pm25 bp hbp⟩⟩
  · exact ⟨by norm_num [pm10_breakpoints, List.chain'_cons],
      fun bp hbp => ⟨aqi_at_hi _ tableOK_pm10 bp hbp, aqi_at_lo _ tableOK_pm10 bp hbp⟩⟩
  · exact ⟨by norm_num [no2_breakpoints, List.chain'_cons],
      fun bp hbp => ⟨aqi_at_hi _ tableOK_no2 bp hbp, aqi_at_lo _ tableOK_no2 bp hbp⟩⟩
  · exact ⟨by norm_num [so2_breakpoints, List.chain'_cons],
      fun bp hbp => ⟨aqi_at_hi _ tableOK_so2 bp hbp, aqi_at_lo _ tableOK_so2 bp hbp⟩⟩
  · exact ⟨by norm_num [co_breakpoints, List.chain'_cons],
      fun bp hbp => ⟨aqi_at_hi _ tableOK_co bp hbp, aqi_at_lo _ tableOK_co bp hbp⟩⟩
  · exact ⟨by norm_num [o3_breakpoints, List.chain'_cons],
      fun bp hbp => ⟨aqi_at_hi _ tableOK_o3 bp hbp, aqi_at_lo _ tableOK_o3 bp hbp⟩⟩

/-- Closing instance of `aqi_boundary_adjacency` at the PM2.5 table. -/
theorem aqi_boundary_adjacency_witness :
    List.Chain' (fun a b => a.hi < b.lo ∧ b.il = a.ih + 1) pm25_breakpoints ∧
    _calculate_pollutant_aqi (12.1 : ℚ) pm25_breakpoints = some (((51 : ℤ) : ℚ)) := by
  have h := aqi_boundary_adjacency pm25_breakpoints (by simp [allTables])
  exact ⟨h.1, (h.2 ⟨12.1, 35.4, 51, 100⟩ (by simp [pm25_breakpoints])).2⟩

/-- C1 fails on the code: on the spec's end-to-end example (origin AQI 185,
destination AQI 42, no PM2.5 data) the AQI fallback returns 0 — the body's
reference to the nonexistent attribute `pm25_life_impact_coefficient` raises
`AttributeError`, swallowed to `0.0` — so the health-adjusted delta equals the
base delta 12.3 instead of strictly exceeding it.  The computation the
fallback's lines spell out would add 10.9515 years and round to 23.252, which
does strictly exceed 12.3. -/
theorem aqi_fallback_health_adjustment_bug :
    _estimate_life_impact_from_aqi 185 42 = 0 ∧
    (calculate_comparison demoLookup "Delhi" "Vancouver").map
        (fun r => (r.life_expectancy_delta, r.health_adjusted_life_exp_delta)) =
      .ok (123/10, 123/10) ∧
    _estimate_life_impact_from_aqi_intended 185 42 = 109515/10000 ∧
    pyRound 3 (123/10 + _estimate_life_impact_from_aqi_intended 185 42) = 23252/1000 ∧
    (123/10 : ℚ) < 23252/1000 := by
  have hInt : _estimate_life_impact_from_aqi_intended 185 42 = 109515/10000 := by
    norm_num [_estimate_life_impact_from_aqi_intended, _aqi_to_pm25_estimate,
      PM25_LIFE_IMPACT_COEFFICIENT]
  refine ⟨rfl, ?_, hInt, ?_, by norm_num⟩
  · have hD : _get_city_data demoLookup "Delhi" =
        some ⟨"Delhi", some "India", 185, 45, 69.7, 0, 0, 0⟩ := by
      simp [_get_city_data, demoLookup, delhiRow, pyOrFloat]
      try norm_num
    have hV : _get_city_data demoLookup "Vancouver" =
        some ⟨"Vancouver", some "Canada", 42, 115, 82.0, 0, 0, 0⟩ := by
      simp [_get_city_data, demoLookup, delhiRow, vancouverRow, pyOrFloat]
      try norm_num
    have hHA : _calculate_health_adjusted_life_expectancy_delta
        ⟨"Delhi", some "India", 185, 45, 69.7, 0, 0, 0⟩
        ⟨"Vancouver", some "Canada", 42, 115, 82.0, 0, 0, 0⟩ = 123/10 := by
      unfold _calculate_health_adjusted_life_expectancy_delta
      dsimp only
      rw [if_neg (by simp)]
      rw [show ((82.0 : ℚ) - 69.7 + _estimate_life_impact_from_aqi 185 42) = 123/10 by
        norm_num [_estimate_life_impact_from_aqi]]
      exact pyRound_eq_self 3 (123/10) 12300 (by norm_num)
    simp only [calculate_comparison, calculate_comparison_body, hD, hV]
    dsimp only [Except.map]
    rw [hHA]
    norm_num [Prod.mk.injEq]
  · rw [hInt]
    unfold pyRound
    rw [show ((123/10 + 109515/10000 : ℚ) * 10 ^ 3) = ((23251 : ℤ) : ℚ) + 1/2 by norm_num,
      rhe_half]
    norm_num

/-- C8 fails as stated: with no city resolvable, `calculate_comparison` raises,
but the caller sees a bare wrapped `Exception`, not a `CityNotFoundError`-class
failure (no such class exists in the repository). -/
theorem comparison_error_is_generic_exception :
    calculate_comparison (fun _ => none) "Delhi" "Vancouver" =
      .error (.exception ("Failed to calculate life-cost comparison: " ++
        "City data not found for one or both cities")) ∧
    PyExc.isCityNotFound (.exception ("Failed to calculate life-cost comparison: " ++
      "City data not found for one or both cities")) = false :=
  ⟨rfl, rfl⟩

/-- C8 amended: `calculate_comparison` fails exactly when the lookup resolves
no record for at least one of the two keys (no defaulted record is used), and
the caller-visible failure is always the generic wrapped `Exception` carrying
the city-not-found message — not a distinct `CityNotFoundError` class. -/
theorem comparison_fails_iff_city_missing (lookup : String → Option RawCityRow)
    (origin_city destination_city : String) :
    (exceptOk (calculate_comparison lookup origin_city destination_city) = false ↔
      (_get_city_data lookup origin_city = none ∨
        _get_city_data lookup destination_city = none)) ∧
    (∀ e, calculate_comparison lookup origin_city destination_city = .error e →
      e = .exception ("Failed to calculate life-cost comparison: " ++
        "City data not found for one or both cities")) := by
  cases h1 : _get_city_data lookup origin_city <;>
    cases h2 : _get_city_data lookup destination_city <;>
      simp [calculate_comparison, calculate_comparison_body, h1, h2, exceptOk, pyStr]

/-- Closing instance of `comparison_fails_iff_city_missing` at an empty
lookup. -/
theorem comparison_fails_iff_city_missing_witness :
    exceptOk (calculate_comparison (fun _ => none) "Paris" "Lyon") = false :=
  ((comparison_fails_iff_city_missing (fun _ => none) "Paris" "Lyon").1).mpr (Or.inl rfl)

/-- C9: whenever both city keys resolve, both comparison directions succeed and
their cost, AQI, base life-expectancy and health-adjusted deltas are exact
sign-inversions of each other. -/
theorem comparison_deltas_antisymmetric (lookup : String → Option RawCityRow)
    (kA kB : String) (oR dR : CityData)
    (hA : _get_city_data lookup kA = some oR) (hB : _get_city_data lookup kB = some dR) :
    exceptOk (calculate_comparison lookup kA kB) = true ∧
    exceptOk (calculate_comparison lookup kB kA) = true ∧
    (calculate_comparison lookup kA kB).map ComparisonResult.cost_delta =
      (calculate_comparison lookup kB kA).map (fun r => -r.cost_delta) ∧
    (calculate_comparison lookup kA kB).map ComparisonResult.aqi_delta =
      (calculate_comparison lookup kB kA).map (fun r => -r.aqi_delta) ∧
    (calculate_comparison lookup kA kB).map ComparisonResult.life_expectancy_delta =
      (calculate_comparison lookup kB kA).map (fun r => -r.life_expectancy_delta) ∧
    (calculate_comparison lookup kA kB).map ComparisonResult.health_adjusted_life_exp_delta =
      (calculate_comparison lookup kB kA).map
        (fun r => -r.health_adjusted_life_exp_delta) := by
  simp only [calculate_comparison, calculate_comparison_body, hA, hB]
  dsimp only [Except.map, exceptOk]
  refine ⟨rfl, rfl, ?_, ?_, ?_, ?_⟩
  · simp [neg_sub]
  · simp [neg_sub]
  · simp [neg_sub]
  · rw [healthAdj_anti oR dR]

/-- Closing instance of `comparison_deltas_antisymmetric` on a two-city
lookup. -/
theorem comparison_deltas_antisymmetric_witness :
    (calculate_comparison
        (fun k => if k = "A"
          then some (⟨"A", none, some 10, some 95, some 80, some 10, some 1, some 2⟩ : RawCityRow)
          else some (⟨"B", none, some 20, some 105, some 70, some 5, some 3, some 4⟩ : RawCityRow))
        "A" "B").map ComparisonResult.cost_delta =
      (calculate_comparison
        (fun k => if k = "A"
          then some (⟨"A", none, some 10, some 95, some 80, some 10, some 1, some 2⟩ : RawCityRow)
          else some (⟨"B", none, some 20, some 105, some 70, some 5, some 3, some 4⟩ : RawCityRow))
        "B" "A").map (fun r => -r.cost_delta) :=
  (comparison_deltas_antisymmetric _ "A" "B"
    ⟨"A", none, 10, 95, 80, 10, 1, 2⟩ ⟨"B", none, 20, 105, 70, 5, 3, 4⟩
    (by simp [_get_city_data, pyOrFloat])
    (by simp [_get_city_data, pyOrFloat])).2.2.1

/-- C10: a resolved row has Python-falsy fields replaced by the fixed defaults
(aqi 0, cost-of-living 100, life expectancy 75, pm25 0, latitude/longitude 0)
instead of failing; a missing PM2.5 becomes 0, which fails the strict
positivity test and routes the health adjustment to the AQI-based fallback
branch. -/
theorem city_record_null_defaults (lookup : String → Option RawCityRow)
    (key : String) (row : RawCityRow) (rec : CityData)
    (hrow : lookup key = some row) (hrec : _get_city_data lookup key = some rec) :
    (row.standardized_aqi = none → rec.standardized_aqi = 0) ∧
    (row.cost_of_living_index = none → rec.cost_of_living_index = 100) ∧
    (row.life_expectancy = none → rec.life_expectancy = 75) ∧
    (row.pm25_concentration = none → rec.pm25_concentration = 0) ∧
    (row.latitude = none → rec.latitude = 0) ∧
    (row.longitude = none → rec.longitude = 0) ∧
    (row.pm25_concentration = none → ∀ o : CityData,
      _calculate_health_adjusted_life_expectancy_delta o rec =
        pyRound 3 ((rec.life_expectancy - o.life_expectancy) +
          _estimate_life_impact_from_aqi o.standardized_aqi rec.standardized_aqi) ∧
      _calculate_health_adjusted_life_expectancy_delta rec o =
        pyRound 3 ((o.life_expectancy - rec.life_expectancy) +
          _estimate_life_impact_from_aqi rec.standardized_aqi o.standardized_aqi)) := by
  rw [_get_city_data, hrow] at hrec
  simp only [Option.some.injEq] at hrec
  subst hrec
  refine ⟨?_, ?_, ?_, ?_, ?_, ?_, ?_⟩
  · intro hnone; simp [pyOrFloat, hnone]
  · intro hnone; simp [pyOrFloat, hnone]
  · intro hnone; simp [pyOrFloat, hnone]
  · intro hnone; simp [pyOrFloat, hnone]
  · intro hnone; simp [pyOrFloat, hnone]
  · intro hnone; simp [pyOrFloat, hnone]
  · intro hnone o
    constructor
    · unfold _calculate_health_adjusted_life_expectancy_delta
      dsimp only
      rw [if_neg (by simp [pyOrFloat, hnone])]
    · unfold _calculate_health_adjusted_life_expectancy_delta
      dsimp only
      rw [if_neg (by simp [pyOrFloat, hnone])]

/-- Closing instance of `city_record_null_defaults` at a row whose numeric
columns are all NULL. -/
theorem city_record_null_defaults_witness :
    (⟨"X", none, 0, 100, 75, 0, 0, 0⟩ : CityData).cost_of_living_index = 100 ∧
    (⟨"X", none, 0, 100, 75, 0, 0, 0⟩ : CityData).pm25_concentration = 0 ∧
    _calculate_health_adjusted_life_expectancy_delta
        (⟨"Y", none, 185, 45, 69.7, 8, 0, 0⟩ : CityData)
        (⟨"X", none, 0, 100, 75, 0, 0, 0⟩ : CityData) =
      pyRound 3 (((⟨"X", none, 0, 100, 75, 0, 0, 0⟩ : CityData).life_expectancy -
          (⟨"Y", none, 185, 45, 69.7, 8, 0, 0⟩ : CityData).life_expectancy) +
        _estimate_life_impact_from_aqi
          (⟨"Y", none, 185, 45, 69.7, 8, 0, 0⟩ : CityData).standardized_aqi
          (⟨"X", none, 0, 100, 75, 0, 0, 0⟩ : CityData).standardized_aqi) := by
  have h := city_record_null_defaults
    (fun _ => some (⟨"X", none, none, none, none, none, none, none⟩ : RawCityRow)) "X"
    ⟨"X", none, none, none, none, none, none, none⟩
    ⟨"X", none, 0, 100, 75, 0, 0, 0⟩ rfl rfl
  exact ⟨h.2.1 rfl, h.2.2.2.1 rfl,
    (h.2.2.2.2.2.2 rfl ⟨"Y", none, 185, 45, 69.7, 8, 0, 0⟩).1⟩

end MoveIQ
